import Mathlib

/-
  Verification of the Tripmate identity/session subsystem.

  Shallow embedding of:
    - src/Backend/src/lib/auth.js            (credential codec, JWT issue/verify)
    - src/Backend/src/services/user.service.js (identity service operations)
    - src/controllers/auth.controller.js     (login / refresh / reset controllers)
    - src/controllers/userController.js      (changePassword; the generation wired
      by src/routes/userRoutes.js, which clears the session and bumps the version)
    - src/middleware (request gate: authenticate)

  Modelling conventions:
    - bcrypt is modelled as a deterministic injective tagging function; the code
      only uses hash/compare pairs, so the salt is irrelevant to the properties.
    - SHA-256 (hashToken) over plain strings is modelled as an injective tag.
      For serialized JWTs the digest is modelled as a structure wrapping the
      token, idealizing collision freeness of SHA-256; equality of digests is
      equality of the fingerprinted tokens.
    - The Prisma store is modelled as at most one account (every claim is about
      the behaviour of the operations on a single account); findUnique by email
      or id checks the corresponding field.
    - The append-only audit write (prisma.auditLog.create) is awaited with no
      try/catch in the source, so its outcome is threaded as a Bool parameter:
      when it is false the operation returns a store error, the user-table
      mutations made before the audit write staying committed.
    - Email dispatch is modelled as always succeeding (no claim concerns it).
    - Timestamps are milliseconds as Nat; Date comparison is Nat comparison.
-/

namespace Tripmate

/-! ## Credential codec (src/Backend/src/lib/auth.js) -/

/-- bcryptjs hash of a password (hashPassword). Deterministic injective model. -/
def hashPassword (password : String) : String := "bcrypt$" ++ password

/-- bcryptjs.compare (comparePassword). -/
def comparePassword (password hash : String) : Bool := hashPassword password == hash

/-- SHA-256 hex digest of a plain string (hashToken, used for OTP codes).
Injective model of the digest. -/
def hashToken (otp : String) : String := "sha256$" ++ otp

/-- verifyOTP from lib/auth.js: hash the supplied code and compare. -/
def verifyOTP (plainOTP hashedOTP : String) : Bool := hashToken plainOTP == hashedOTP

/-- String.prototype.trim as used on the supplied OTP: strip whitespace from
both ends. -/
def jsTrim (s : String) : String :=
  String.mk (((s.data.dropWhile Char.isWhitespace).reverse.dropWhile
    Char.isWhitespace).reverse)

/-! ## JWT model (jsonwebtoken usage in lib/auth.js) -/

/-- The token payload built by the controllers:
`{ userId, role, version }` where `version` may be absent (older tokens). -/
structure TokenPayload where
  userId : Nat
  role : String
  version : Option Nat
deriving DecidableEq, Repr

/-- A signed JWT: payload, signing secret, expiry timestamp (ms). -/
structure Jwt where
  payload : TokenPayload
  secret : String
  exp : Nat
deriving DecidableEq, Repr

def JWT_ACCESS_SECRET : String := "access-secret"
def JWT_REFRESH_SECRET : String := "refresh-secret"

inductive JwtError where
  | expired
  | invalid
deriving DecidableEq, Repr

/-- jwt.verify: signature check, then expiry check; returns the payload. -/
def jwtVerify (t : Jwt) (secret : String) (now : Nat) : Except JwtError TokenPayload :=
  if t.secret ≠ secret then .error .invalid
  else if t.exp ≤ now then .error .expired
  else .ok t.payload

/-- maxAge of the access-token cookie and expiresIn of the access token: 15 min. -/
def ACCESS_TOKEN_TTL_MS : Nat := 1000 * 60 * 15

/-- maxAge of the refresh-token cookie and expiresIn of the refresh token: 7 days. -/
def REFRESH_TOKEN_TTL_MS : Nat := 1000 * 60 * 60 * 24 * 7

/-- generateAccessToken: sign with the access secret. -/
def generateAccessToken (p : TokenPayload) (now : Nat) : Jwt :=
  { payload := p, secret := JWT_ACCESS_SECRET, exp := now + ACCESS_TOKEN_TTL_MS }

/-- generateRefreshToken: sign with the refresh secret. -/
def generateRefreshToken (p : TokenPayload) (now : Nat) : Jwt :=
  { payload := p, secret := JWT_REFRESH_SECRET, exp := now + REFRESH_TOKEN_TTL_MS }

/-- SHA-256 digest of a serialized refresh token (hashToken applied to the JWT
string). Collision freeness of SHA-256 is idealized by letting the digest carry
the fingerprinted token; digests are equal iff the tokens are. -/
structure TokenDigest where
  tok : Jwt
deriving DecidableEq, Repr

def tokenFingerprint (t : Jwt) : TokenDigest := ⟨t⟩

/-! ## Data model: the User row of the Prisma schema -/

structure Account where
  id : Nat
  email : String
  password : String
  firstName : String
  lastName : String
  roleName : String
  isVerified : Bool
  isActive : Bool
  otpCode : Option String
  otpExpiresAt : Option Nat
  refreshToken : Option TokenDigest
  tokenVersion : Nat
deriving DecidableEq, Repr

/-- The user table, restricted to at most one account. -/
abbrev Db := Option Account

/-- prisma.user.findUnique({ where: { email } }). -/
def findByEmail (db : Db) (email : String) : Option Account :=
  match db with
  | some u => if u.email == email then some u else none
  | none => none

/-- prisma.user.findUnique({ where: { id } }). -/
def findById (db : Db) (id : Nat) : Option Account :=
  match db with
  | some u => if u.id == id then some u else none
  | none => none

/-! ## Error taxonomy (src/Backend/src/utils/errors.js, plus raw jwt and store
errors that are not AppError subclasses) -/

inductive ErrKind where
  | validationError
  | notFoundError
  | authenticationError
  | forbiddenError
  | jwtInvalid
  | jwtExpired
  | storeError
deriving DecidableEq, Repr

structure Err where
  kind : ErrKind
  message : String
deriving DecidableEq, Repr

/-- The error raised when the awaited prisma.auditLog.create rejects. -/
def auditErr : Err := ⟨.storeError, "audit log write failed"⟩

/-- OTP_EXPIRE_MINUTES = Number(process.env.OTP_EXPIRES_MINUTES || 15). -/
def OTP_EXPIRE_MINUTES : Nat := 15

/-! ## Identity service (src/Backend/src/services/user.service.js)

Each operation returns the user table after its committed writes together with
the result the caller sees. The generated OTP, the current time, fresh ids and
the audit-sink outcome are explicit parameters. -/

/-- registerUser: reject verified duplicates, hash password, set OTP fields,
upsert the unverified account, send mail, append audit. -/
def registerUser (email password firstName lastName otp : String)
    (now freshId : Nat) (auditOk : Bool) (db : Db) : Db × Except Err String :=
  if (findByEmail db email).any (fun u => u.isVerified) then
    (db, .error ⟨.validationError, "Email already registered and verified."⟩)
  else
    let hashedPassword := hashPassword password
    let otpHash := hashToken otp
    let otpExpiresAt := now + OTP_EXPIRE_MINUTES * 60 * 1000
    let user : Account :=
      match findByEmail db email with
      | some u =>
        { u with
          firstName := firstName
          lastName := lastName
          password := hashedPassword
          otpCode := some otpHash
          otpExpiresAt := some otpExpiresAt
          isVerified := false }
      | none =>
        { id := freshId
          email := email
          password := hashedPassword
          firstName := firstName
          lastName := lastName
          roleName := "TRAVELLER"
          isVerified := false
          isActive := true
          otpCode := some otpHash
          otpExpiresAt := some otpExpiresAt
          refreshToken := none
          tokenVersion := 0 }
    if auditOk then
      (some user, .ok "OTP sent to email. Please verify to complete registration.")
    else (some user, .error auditErr)

/-- verifyEmailOTP (service): no-pending, expiry, then hash comparison with the
trimmed input; on success mark verified and clear both OTP fields. -/
def verifyEmailOTP (email otp : String) (now : Nat) (auditOk : Bool) (db : Db) :
    Db × Except Err Account :=
  match findByEmail db email with
  | none => (db, .error ⟨.notFoundError, "User not found."⟩)
  | some user =>
    match user.otpCode, user.otpExpiresAt with
    | some stored, some expiresAt =>
      if now > expiresAt then
        (db, .error ⟨.validationError, "OTP expired. Please register again or resend OTP."⟩)
      else if hashToken (jsTrim otp) == stored then
        let updated := { user with
          isVerified := true
          otpCode := none
          otpExpiresAt := none
          isActive := true }
        if auditOk then (some updated, .ok updated)
        else (some updated, .error auditErr)
      else (db, .error ⟨.validationError, "Invalid OTP."⟩)
    | _, _ =>
      (db, .error ⟨.validationError, "No OTP request found. Please request a new one."⟩)

/-- createAndSendOTP: overwrite the OTP fields with a fresh code and
now + OTP_EXPIRE_MINUTES, for every purpose (the type only selects the email
template), then send mail and append audit. -/
def createAndSendOTP (email otpType otp : String) (now : Nat) (auditOk : Bool)
    (db : Db) : Db × Except Err String :=
  match findByEmail db email with
  | none => (db, .error ⟨.notFoundError, "User not found."⟩)
  | some user =>
    let updated := { user with
      otpCode := some (hashToken otp)
      otpExpiresAt := some (now + OTP_EXPIRE_MINUTES * 60 * 1000) }
    if auditOk then (some updated, .ok ("OTP sent to " ++ user.email))
    else (some updated, .error auditErr)

/-- authenticateUser: unknown email and wrong password both yield the same
ValidationError "Invalid credentials."; then verification and active checks. -/
def authenticateUser (email password : String) (auditOk : Bool) (db : Db) :
    Db × Except Err Account :=
  match findByEmail db email with
  | none => (db, .error ⟨.validationError, "Invalid credentials."⟩)
  | some user =>
    if ¬ comparePassword password user.password then
      (db, .error ⟨.validationError, "Invalid credentials."⟩)
    else if ¬ user.isVerified then
      (db, .error ⟨.validationError, "Email not verified. Please verify your account."⟩)
    else if ¬ user.isActive then
      (db, .error ⟨.forbiddenError, "Your account has been blocked by an administrator."⟩)
    else if auditOk then (db, .ok user)
    else (db, .error auditErr)

/-- saveRefreshToken: store the fingerprint of the refresh token as the sole
live session; prisma.user.update rejects when the row is missing. -/
def saveRefreshToken (userId : Nat) (refreshTok : Jwt) (db : Db) :
    Db × Except Err Unit :=
  match findById db userId with
  | some u => (some { u with refreshToken := some (tokenFingerprint refreshTok) }, .ok ())
  | none => (db, .error ⟨.storeError, "Record to update not found."⟩)

/-- getUserWithRefreshToken: user must exist, have a stored session fingerprint,
and the supplied token must fingerprint to it. No version comparison happens. -/
def getUserWithRefreshToken (userId : Nat) (refreshTok : Jwt) (db : Db) :
    Except Err Account :=
  match findById db userId with
  | none => .error ⟨.notFoundError, "User not found."⟩
  | some user =>
    match user.refreshToken with
    | none => .error ⟨.validationError, "No valid session."⟩
    | some stored =>
      if tokenFingerprint refreshTok == stored then .ok user
      else .error ⟨.validationError, "Invalid refresh token."⟩

/-- clearRefreshToken: null the stored fingerprint, then append audit. -/
def clearRefreshToken (userId : Nat) (auditOk : Bool) (db : Db) :
    Db × Except Err Unit :=
  match findById db userId with
  | none => (db, .error ⟨.storeError, "Record to update not found."⟩)
  | some u =>
    let db1 : Db := some { u with refreshToken := none }
    if auditOk then (db1, .ok ()) else (db1, .error auditErr)

/-- resetPassword (service): validate the OTP (no-pending, expiry, hash), then
store the new password hash, clear both OTP fields, clear the session and
increment the token version in one update; audit afterwards. -/
def resetPassword (email otp newPassword : String) (now : Nat) (auditOk : Bool)
    (db : Db) : Db × Except Err String :=
  match findByEmail db email with
  | none => (db, .error ⟨.notFoundError, "User not found."⟩)
  | some user =>
    match user.otpCode, user.otpExpiresAt with
    | some stored, some expiresAt =>
      if now > expiresAt then
        (db, .error ⟨.validationError, "OTP has expired."⟩)
      else if ¬ verifyOTP otp stored then
        (db, .error ⟨.validationError, "Invalid OTP."⟩)
      else
        let updated := { user with
          password := hashPassword newPassword
          otpCode := none
          otpExpiresAt := none
          refreshToken := none
          tokenVersion := user.tokenVersion + 1 }
        if auditOk then (some updated, .ok "Password reset successful.")
        else (some updated, .error auditErr)
    | _, _ => (db, .error ⟨.validationError, "No OTP request found."⟩)

/-- revokeAllUserSessions: clear the fingerprint and increment tokenVersion. -/
def revokeAllUserSessions (userId : Nat) (auditOk : Bool) (db : Db) :
    Db × Except Err Unit :=
  match findById db userId with
  | none => (db, .error ⟨.storeError, "Record to update not found."⟩)
  | some u =>
    let db1 : Db := some { u with
      refreshToken := none
      tokenVersion := u.tokenVersion + 1 }
    if auditOk then (db1, .ok ()) else (db1, .error auditErr)

/-- blockUser: set isActive false, audit afterwards. -/
def blockUser (userId : Nat) (auditOk : Bool) (db : Db) : Db × Except Err Unit :=
  match findById db userId with
  | none => (db, .error ⟨.storeError, "Record to update not found."⟩)
  | some u =>
    let db1 : Db := some { u with isActive := false }
    if auditOk then (db1, .ok ()) else (db1, .error auditErr)

/-- unblockUser: set isActive true, audit afterwards. -/
def unblockUser (userId : Nat) (auditOk : Bool) (db : Db) : Db × Except Err Unit :=
  match findById db userId with
  | none => (db, .error ⟨.storeError, "Record to update not found."⟩)
  | some u =>
    let db1 : Db := some { u with isActive := true }
    if auditOk then (db1, .ok ()) else (db1, .error auditErr)

/-- changePassword of the controller generation wired by
src/routes/userRoutes.js (the userController.js whose exports userRoutes.js
imports): verify the current password, then store the new hash, clear the
stored refresh-token fingerprint and increment tokenVersion in one update. -/
def changePassword (userId : Nat) (currentPassword newPassword : String)
    (db : Db) : Db × Except Err String :=
  match findById db userId with
  | none => (db, .error ⟨.notFoundError, "User not found."⟩)
  | some user =>
    if ¬ comparePassword currentPassword user.password then
      (db, .error ⟨.validationError, "Current password is incorrect"⟩)
    else
      (some { user with
          password := hashPassword newPassword
          refreshToken := none
          tokenVersion := user.tokenVersion + 1 },
       .ok "Password changed successfully. Please login again.")

/-- changePassword of the superseded controller generation (the old
userController.js routed by userRoutes.doc.js): it only overwrites the
password; it does not touch refreshToken or tokenVersion. Kept to document the
divergence between the two controller generations present in the repository. -/
def changePasswordLegacy (userId : Nat) (currentPassword newPassword : String)
    (db : Db) : Db × Except Err String :=
  match findById db userId with
  | none => (db, .error ⟨.notFoundError, "User not found"⟩)
  | some user =>
    if ¬ comparePassword currentPassword user.password then
      (db, .error ⟨.authenticationError, "Current password is incorrect"⟩)
    else
      (some { user with password := hashPassword newPassword },
       .ok "Password changed successfully")

/-! ## Auth controllers (src/controllers/auth.controller.js) -/

structure TokenPair where
  accessToken : Jwt
  refreshToken : Jwt
deriving DecidableEq, Repr

/-- refreshTokens: extract the token, jwt.verify under the refresh secret,
getUserWithRefreshToken, then issue a fresh pair at the current tokenVersion
and overwrite the stored fingerprint. There is no comparison of the version
claim carried by the supplied token. -/
def refreshTokens (supplied : Option Jwt) (now : Nat) (db : Db) :
    Db × Except Err TokenPair :=
  match supplied with
  | none => (db, .error ⟨.authenticationError, "No refresh token provided"⟩)
  | some tok =>
    match jwtVerify tok JWT_REFRESH_SECRET now with
    | .error .expired => (db, .error ⟨.jwtExpired, "jwt expired"⟩)
    | .error .invalid => (db, .error ⟨.jwtInvalid, "invalid signature"⟩)
    | .ok decoded =>
      match getUserWithRefreshToken decoded.userId tok db with
      | .error e => (db, .error e)
      | .ok user =>
        let p : TokenPayload :=
          { userId := user.id, role := user.roleName, version := some user.tokenVersion }
        let newAccessToken := generateAccessToken p now
        let newRefreshToken := generateRefreshToken p now
        match saveRefreshToken user.id newRefreshToken db with
        | (db1, .ok _) => (db1, .ok ⟨newAccessToken, newRefreshToken⟩)
        | (db1, .error e) => (db1, .error e)

/-- login controller: authenticateUser, re-check verified and active, then
issue a pair at the current tokenVersion and store its fingerprint. -/
def login (email password : String) (now : Nat) (auditOk : Bool) (db : Db) :
    Db × Except Err (Account × TokenPair) :=
  match authenticateUser email password auditOk db with
  | (db1, .error e) => (db1, .error e)
  | (db1, .ok user) =>
    if ¬ user.isVerified then
      (db1, .error ⟨.authenticationError, "Email not verified. Please verify your email first."⟩)
    else if ¬ user.isActive then
      (db1, .error ⟨.forbiddenError, "Your account is blocked. Please contact support."⟩)
    else
      let p : TokenPayload :=
        { userId := user.id, role := user.roleName, version := some user.tokenVersion }
      let accessTok := generateAccessToken p now
      let refreshTok := generateRefreshToken p now
      match saveRefreshToken user.id refreshTok db1 with
      | (db2, .ok _) => (db2, .ok (user, ⟨accessTok, refreshTok⟩))
      | (db2, .error e) => (db2, .error e)

/-- verifyEmailOTP controller: run the service, then issue a pair at the
current tokenVersion of the updated user and store its fingerprint. -/
def verifyEmailController (email otp : String) (now : Nat) (auditOk : Bool)
    (db : Db) : Db × Except Err (Account × TokenPair) :=
  match verifyEmailOTP email otp now auditOk db with
  | (db1, .error e) => (db1, .error e)
  | (db1, .ok user) =>
    let p : TokenPayload :=
      { userId := user.id, role := user.roleName, version := some user.tokenVersion }
    let accessTok := generateAccessToken p now
    let refreshTok := generateRefreshToken p now
    match saveRefreshToken user.id refreshTok db1 with
    | (db2, .ok _) => (db2, .ok (user, ⟨accessTok, refreshTok⟩))
    | (db2, .error e) => (db2, .error e)

/-- requestPasswordReset controller: createAndSendOTP with type
PASSWORD_RESET; errors (including the NotFoundError for an unknown email) are
passed to next(err) and reach the caller through the error handler. -/
def requestPasswordReset (email otp : String) (now : Nat) (auditOk : Bool)
    (db : Db) : Db × Except Err String :=
  match createAndSendOTP email "PASSWORD_RESET" otp now auditOk db with
  | (db1, .error e) => (db1, .error e)
  | (db1, .ok _) => (db1, .ok "Password reset link sent to your email.")

/-! ## Request gate (src/middleware, the authenticate middleware) -/

/-- authenticate: extract the access token, jwt.verify under the access
secret, load the user, reject blocked accounts, and compare the version claim
against tokenVersion only when the payload carries one. -/
def authenticate (supplied : Option Jwt) (now : Nat) (db : Db) :
    Except Err Account :=
  match supplied with
  | none => .error ⟨.authenticationError, "No access token provided"⟩
  | some tok =>
    match jwtVerify tok JWT_ACCESS_SECRET now with
    | .error .expired => .error ⟨.authenticationError, "Token has expired"⟩
    | .error .invalid => .error ⟨.authenticationError, "Invalid or expired token"⟩
    | .ok payload =>
      match findById db payload.userId with
      | none => .error ⟨.authenticationError, "User not found"⟩
      | some user =>
        if ¬ user.isActive then
          .error ⟨.forbiddenError, "Account is blocked. Please contact support."⟩
        else
          match payload.version with
          | some v =>
            if v ≠ user.tokenVersion then
              .error ⟨.authenticationError, "Session revoked. Please login again."⟩
            else .ok user
          | none => .ok user


/-! ## Reachable states of the identity subsystem

The state-changing entry points (service operations together with the
controllers that follow a token issuance with saveRefreshToken) define the
step relation; reachable user tables are those produced from the empty table.
saveRefreshToken alone is not a step: in the source it is invoked only by the
login, email-verification and refresh controllers, directly after generating
the pair at the current tokenVersion of the loaded user. -/

inductive Step : Db → Db → Prop where
  | register (email password firstName lastName otp : String) (now freshId : Nat)
      (auditOk : Bool) (db : Db) :
      Step db (registerUser email password firstName lastName otp now freshId auditOk db).1
  | verifyEmail (email otp : String) (now : Nat) (auditOk : Bool) (db : Db) :
      Step db (verifyEmailController email otp now auditOk db).1
  | loginStep (email password : String) (now : Nat) (auditOk : Bool) (db : Db) :
      Step db (login email password now auditOk db).1
  | refreshStep (supplied : Option Jwt) (now : Nat) (db : Db) :
      Step db (refreshTokens supplied now db).1
  | logoutStep (userId : Nat) (auditOk : Bool) (db : Db) :
      Step db (clearRefreshToken userId auditOk db).1
  | resendStep (email otpType otp : String) (now : Nat) (auditOk : Bool) (db : Db) :
      Step db (createAndSendOTP email otpType otp now auditOk db).1
  | requestResetStep (email otp : String) (now : Nat) (auditOk : Bool) (db : Db) :
      Step db (requestPasswordReset email otp now auditOk db).1
  | resetStep (email otp newPassword : String) (now : Nat) (auditOk : Bool) (db : Db) :
      Step db (resetPassword email otp newPassword now auditOk db).1
  | revokeStep (userId : Nat) (auditOk : Bool) (db : Db) :
      Step db (revokeAllUserSessions userId auditOk db).1
  | changePasswordStep (userId : Nat) (currentPassword newPassword : String) (db : Db) :
      Step db (changePassword userId currentPassword newPassword db).1
  | blockStep (userId : Nat) (auditOk : Bool) (db : Db) :
      Step db (blockUser userId auditOk db).1
  | unblockStep (userId : Nat) (auditOk : Bool) (db : Db) :
      Step db (unblockUser userId auditOk db).1

/-- A user table is reachable when a sequence of operations produces it from
the empty table. -/
def Reach (db : Db) : Prop := Relation.ReflTransGen Step none db

/-- Invariant: otpCode and otpExpiresAt are both null or both set. -/
def OtpFieldsConsistent (u : Account) : Prop :=
  u.otpCode.isSome = u.otpExpiresAt.isSome

/-- Invariant: the stored fingerprint, when present, is of a refresh token
whose version claim is the current tokenVersion and whose subject is the
account. -/
def SessionInv (u : Account) : Prop :=
  ∀ d, u.refreshToken = some d →
    d.tok.payload.version = some u.tokenVersion ∧ d.tok.payload.userId = u.id

def DbInv (db : Db) : Prop := ∀ u, db = some u → OtpFieldsConsistent u ∧ SessionInv u

theorem dbInv_none : DbInv none := by
  intro u hu
  cases hu

theorem dbInv_some {u : Account} (h1 : OtpFieldsConsistent u) (h2 : SessionInv u) :
    DbInv (some u) := by
  intro w hw
  injection hw with hw
  subst hw
  exact ⟨h1, h2⟩

theorem sessionInv_of_none {u : Account} (h : u.refreshToken = none) : SessionInv u := by
  intro d hd
  rw [h] at hd
  cases hd

theorem findByEmail_eq_some {db : Db} {e : String} {u : Account}
    (h : findByEmail db e = some u) : db = some u := by
  cases db with
  | none => cases h
  | some v =>
    simp only [findByEmail] at h
    split at h
    · injection h with h2
      rw [h2]
    · cases h

theorem findById_eq_some {db : Db} {i : Nat} {u : Account}
    (h : findById db i = some u) : db = some u := by
  cases db with
  | none => cases h
  | some v =>
    simp only [findById] at h
    split at h
    · injection h with h2
      rw [h2]
    · cases h

theorem findById_self (u : Account) : findById (some u) u.id = some u := by
  simp [findById]

theorem saveRefreshToken_dbInv {u : Account} {t : Jwt}
    (hotp : OtpFieldsConsistent u)
    (hv : t.payload.version = some u.tokenVersion)
    (hid : t.payload.userId = u.id) :
    DbInv (saveRefreshToken u.id t (some u)).1 := by
  unfold saveRefreshToken
  rw [findById_self]
  apply dbInv_some
  · exact hotp
  · intro d hd
    injection hd with hd
    subst hd
    exact ⟨hv, hid⟩

theorem registerUser_dbInv (email password firstName lastName otp : String)
    (now freshId : Nat) (auditOk : Bool) (db : Db) (h : DbInv db) :
    DbInv (registerUser email password firstName lastName otp now freshId auditOk db).1 := by
  unfold registerUser
  split
  · exact h
  · cases hfe : findByEmail db email with
    | none =>
      simp only [hfe]
      cases auditOk <;> exact dbInv_some rfl (sessionInv_of_none rfl)
    | some u =>
      have hu := (h u (findByEmail_eq_some hfe)).2
      simp only [hfe]
      cases auditOk <;>
        exact dbInv_some rfl (fun d hd => hu d hd)

theorem verifyEmailOTP_dbInv (email otp : String) (now : Nat) (auditOk : Bool)
    (db : Db) (h : DbInv db) :
    DbInv (verifyEmailOTP email otp now auditOk db).1 := by
  unfold verifyEmailOTP
  split
  · exact h
  case _ user heq =>
    have hu := (h user (findByEmail_eq_some heq)).2
    split
    · split
      · exact h
      · split
        · cases auditOk <;> exact dbInv_some rfl (fun d hd => hu d hd)
        · exact h
    all_goals exact h

theorem createAndSendOTP_dbInv (email otpType otp : String) (now : Nat)
    (auditOk : Bool) (db : Db) (h : DbInv db) :
    DbInv (createAndSendOTP email otpType otp now auditOk db).1 := by
  unfold createAndSendOTP
  split
  · exact h
  case _ user heq =>
    have hu := (h user (findByEmail_eq_some heq)).2
    cases auditOk <;> exact dbInv_some rfl (fun d hd => hu d hd)

theorem clearRefreshToken_dbInv (userId : Nat) (auditOk : Bool) (db : Db)
    (h : DbInv db) : DbInv (clearRefreshToken userId auditOk db).1 := by
  unfold clearRefreshToken
  split
  · exact h
  case _ u heq =>
    have hc := (h u (findById_eq_some heq)).1
    cases auditOk <;> exact dbInv_some hc (sessionInv_of_none rfl)

theorem resetPassword_dbInv (email otp newPassword : String) (now : Nat)
    (auditOk : Bool) (db : Db) (h : DbInv db) :
    DbInv (resetPassword email otp newPassword now auditOk db).1 := by
  unfold resetPassword
  split
  · exact h
  case _ user heq =>
    split
    · split
      · exact h
      · split
        · exact h
        · cases auditOk <;> exact dbInv_some rfl (sessionInv_of_none rfl)
    all_goals exact h

theorem revokeAllUserSessions_dbInv (userId : Nat) (auditOk : Bool) (db : Db)
    (h : DbInv db) : DbInv (revokeAllUserSessions userId auditOk db).1 := by
  unfold revokeAllUserSessions
  split
  · exact h
  case _ u heq =>
    have hc := (h u (findById_eq_some heq)).1
    cases auditOk <;> exact dbInv_some hc (sessionInv_of_none rfl)

theorem blockUser_dbInv (userId : Nat) (auditOk : Bool) (db : Db)
    (h : DbInv db) : DbInv (blockUser userId auditOk db).1 := by
  unfold blockUser
  split
  · exact h
  case _ u heq =>
    have hinv := h u (findById_eq_some heq)
    cases auditOk <;>
      exact dbInv_some hinv.1 (fun d hd => hinv.2 d hd)

theorem unblockUser_dbInv (userId : Nat) (auditOk : Bool) (db : Db)
    (h : DbInv db) : DbInv (unblockUser userId auditOk db).1 := by
  unfold unblockUser
  split
  · exact h
  case _ u heq =>
    have hinv := h u (findById_eq_some heq)
    cases auditOk <;>
      exact dbInv_some hinv.1 (fun d hd => hinv.2 d hd)

theorem changePassword_dbInv (userId : Nat) (currentPassword newPassword : String)
    (db : Db) (h : DbInv db) :
    DbInv (changePassword userId currentPassword newPassword db).1 := by
  unfold changePassword
  split
  · exact h
  case _ user heq =>
    have hc := (h user (findById_eq_some heq)).1
    split
    · exact h
    · exact dbInv_some hc (sessionInv_of_none rfl)

theorem authenticateUser_ok {email password : String} {auditOk : Bool}
    {db db1 : Db} {user : Account}
    (h : authenticateUser email password auditOk db = (db1, .ok user)) :
    db = some user ∧ db1 = db := by
  unfold authenticateUser at h
  split at h
  · cases congrArg Prod.snd h
  case _ user0 heq =>
    split at h
    · cases congrArg Prod.snd h
    · split at h
      · cases congrArg Prod.snd h
      · split at h
        · cases congrArg Prod.snd h
        · split at h
          · have h1 := congrArg Prod.fst h
            have h2 := congrArg Prod.snd h
            simp only at h1 h2
            injection h2 with h2
            subst h2
            exact ⟨findByEmail_eq_some heq, h1.symm ▸ rfl⟩
          · cases congrArg Prod.snd h

theorem getUserWithRefreshToken_ok {userId : Nat} {t : Jwt} {db : Db}
    {user : Account}
    (h : getUserWithRefreshToken userId t db = .ok user) :
    db = some user ∧ user.refreshToken = some (tokenFingerprint t) := by
  unfold getUserWithRefreshToken at h
  split at h
  · cases h
  case _ user0 heq =>
    split at h
    · cases h
    case _ stored hstored =>
      split at h
      case _ hbeq =>
        injection h with h
        subst h
        refine ⟨findById_eq_some heq, ?_⟩
        rw [hstored, eq_of_beq hbeq]
      · cases h

theorem verifyEmailOTP_ok {email otp : String} {now : Nat} {auditOk : Bool}
    {db db1 : Db} {user : Account}
    (h : verifyEmailOTP email otp now auditOk db = (db1, .ok user)) :
    db1 = some user ∧ user.otpCode = none ∧ user.otpExpiresAt = none ∧
      user.email = email := by
  unfold verifyEmailOTP at h
  split at h
  · cases congrArg Prod.snd h
  case _ user0 heq =>
    have hem : user0.email = email := by
      cases db with
      | none => cases heq
      | some v =>
        simp only [findByEmail] at heq
        split at heq
        case _ hbeq =>
          injection heq with heq2
          subst heq2
          exact eq_of_beq hbeq
        · cases heq
    split at h
    · split at h
      · cases congrArg Prod.snd h
      · split at h
        · split at h
          · have h1 := congrArg Prod.fst h
            have h2 := congrArg Prod.snd h
            simp only at h1 h2
            injection h2 with h2
            subst h2
            exact ⟨h1.symm ▸ rfl, rfl, rfl, hem⟩
          · cases congrArg Prod.snd h
        · cases congrArg Prod.snd h
    all_goals cases congrArg Prod.snd h

theorem authenticateUser_fst (email password : String) (auditOk : Bool) (db : Db) :
    (authenticateUser email password auditOk db).1 = db := by
  unfold authenticateUser
  split
  · rfl
  · split
    · rfl
    · split
      · rfl
      · split
        · rfl
        · split <;> rfl

theorem saveRefreshToken_self (u : Account) (t : Jwt) :
    saveRefreshToken u.id t (some u) =
      (some { u with refreshToken := some (tokenFingerprint t) }, .ok ()) := by
  unfold saveRefreshToken
  rw [findById_self]

theorem login_dbInv (email password : String) (now : Nat) (auditOk : Bool)
    (db : Db) (h : DbInv db) : DbInv (login email password now auditOk db).1 := by
  unfold login
  split
  case _ db1 e heq =>
    have h1 := congrArg Prod.fst heq
    simp only at h1
    rw [← h1, authenticateUser_fst]
    exact h
  case _ db1 user heq =>
    obtain ⟨hdb, hdb1⟩ := authenticateUser_ok heq
    have hotp := (h user hdb).1
    split
    · rw [hdb1]
      exact h
    · split
      · rw [hdb1]
        exact h
      · simp only [hdb1, hdb, saveRefreshToken_self]
        exact dbInv_some hotp
          (fun d hd => by
            injection hd with hd
            subst hd
            exact ⟨rfl, rfl⟩)

theorem verifyEmailController_dbInv (email otp : String) (now : Nat)
    (auditOk : Bool) (db : Db) (h : DbInv db) :
    DbInv (verifyEmailController email otp now auditOk db).1 := by
  unfold verifyEmailController
  split
  case _ db1 e heq =>
    have h1 := congrArg Prod.fst heq
    simp only at h1
    rw [← h1]
    exact verifyEmailOTP_dbInv email otp now auditOk db h
  case _ db1 user heq =>
    obtain ⟨hdb1, hc, he, _⟩ := verifyEmailOTP_ok heq
    have hotp : OtpFieldsConsistent user := by
      unfold OtpFieldsConsistent
      rw [hc, he]
      rfl
    simp only [hdb1, saveRefreshToken_self]
    exact dbInv_some hotp
      (fun d hd => by
        injection hd with hd
        subst hd
        exact ⟨rfl, rfl⟩)

theorem refreshTokens_dbInv (supplied : Option Jwt) (now : Nat) (db : Db)
    (h : DbInv db) : DbInv (refreshTokens supplied now db).1 := by
  unfold refreshTokens
  split
  · exact h
  · split
    · exact h
    · exact h
    case _ decoded heq0 =>
      split
      · exact h
      case _ user heq =>
        obtain ⟨hdb, _⟩ := getUserWithRefreshToken_ok heq
        have hotp := (h user hdb).1
        simp only [hdb, saveRefreshToken_self]
        exact dbInv_some hotp
          (fun d hd => by
            injection hd with hd
            subst hd
            exact ⟨rfl, rfl⟩)

theorem requestPasswordReset_dbInv (email otp : String) (now : Nat)
    (auditOk : Bool) (db : Db) (h : DbInv db) :
    DbInv (requestPasswordReset email otp now auditOk db).1 := by
  unfold requestPasswordReset
  split
  all_goals
    rename_i db1 heq
  case _ =>
    have h1 := congrArg Prod.fst heq
    simp only at h1
    rw [← h1]
    exact createAndSendOTP_dbInv email "PASSWORD_RESET" otp now auditOk db h
  case _ =>
    have h1 := congrArg Prod.fst heq
    simp only at h1
    rw [← h1]
    exact createAndSendOTP_dbInv email "PASSWORD_RESET" otp now auditOk db h

theorem step_dbInv {db db1 : Db} (hs : Step db db1) (h : DbInv db) : DbInv db1 := by
  cases hs with
  | register email password firstName lastName otp now freshId auditOk db =>
    exact registerUser_dbInv email password firstName lastName otp now freshId auditOk db h
  | verifyEmail email otp now auditOk db =>
    exact verifyEmailController_dbInv email otp now auditOk db h
  | loginStep email password now auditOk db =>
    exact login_dbInv email password now auditOk db h
  | refreshStep supplied now db =>
    exact refreshTokens_dbInv supplied now db h
  | logoutStep userId auditOk db =>
    exact clearRefreshToken_dbInv userId auditOk db h
  | resendStep email otpType otp now auditOk db =>
    exact createAndSendOTP_dbInv email otpType otp now auditOk db h
  | requestResetStep email otp now auditOk db =>
    exact requestPasswordReset_dbInv email otp now auditOk db h
  | resetStep email otp newPassword now auditOk db =>
    exact resetPassword_dbInv email otp newPassword now auditOk db h
  | revokeStep userId auditOk db =>
    exact revokeAllUserSessions_dbInv userId auditOk db h
  | changePasswordStep userId currentPassword newPassword db =>
    exact changePassword_dbInv userId currentPassword newPassword db h
  | blockStep userId auditOk db =>
    exact blockUser_dbInv userId auditOk db h
  | unblockStep userId auditOk db =>
    exact unblockUser_dbInv userId auditOk db h

/-- Every reachable user table satisfies both account invariants. -/
theorem reach_dbInv {db : Db} (h : Reach db) : DbInv db := by
  induction h with
  | refl => exact dbInv_none
  | tail _ hs ih => exact step_dbInv hs ih

theorem resetPassword_ok {email otp newPassword : String} {now : Nat}
    {auditOk : Bool} {db db1 : Db} {msg : String}
    (h : resetPassword email otp newPassword now auditOk db = (db1, .ok msg)) :
    ∃ z : Account, db1 = some z ∧ z.otpCode = none ∧ z.otpExpiresAt = none ∧
      z.email = email := by
  unfold resetPassword at h
  split at h
  · cases congrArg Prod.snd h
  case _ user0 heq =>
    have hem : user0.email = email := by
      cases db with
      | none => cases heq
      | some v =>
        simp only [findByEmail] at heq
        split at heq
        case _ hbeq =>
          injection heq with heq2
          subst heq2
          exact eq_of_beq hbeq
        · cases heq
    split at h
    · split at h
      · cases congrArg Prod.snd h
      · split at h
        · cases congrArg Prod.snd h
        · split at h
          · have h1 := congrArg Prod.fst h
            simp only at h1
            refine ⟨_, h1.symm, rfl, rfl, hem⟩
          · cases congrArg Prod.snd h
    all_goals cases congrArg Prod.snd h

theorem jwtVerify_ok {t : Jwt} {s : String} {n : Nat} {p : TokenPayload}
    (h : jwtVerify t s n = .ok p) : p = t.payload := by
  unfold jwtVerify at h
  split at h
  · cases h
  · split at h
    · cases h
    · injection h with h
      exact h.symm

theorem getUserWithRefreshToken_err {userId : Nat} {t : Jwt} {db : Db} {e : Err}
    (h : getUserWithRefreshToken userId t db = .error e) :
    e.message = "User not found." ∨ e.message = "No valid session." ∨
      e.message = "Invalid refresh token." := by
  unfold getUserWithRefreshToken at h
  split at h
  · injection h with h
    subst h
    exact Or.inl rfl
  · split at h
    · injection h with h
      subst h
      exact Or.inr (Or.inl rfl)
    · split at h
      · cases h
      · injection h with h
        subst h
        exact Or.inr (Or.inr rfl)

/-- Refresh never succeeds against an account whose stored fingerprint is
cleared: every path of refreshTokens ends in an error. -/
theorem refreshTokens_some (tok : Jwt) (now : Nat) (db : Db) :
    refreshTokens (some tok) now db =
      match jwtVerify tok JWT_REFRESH_SECRET now with
      | .error .expired => (db, .error ⟨.jwtExpired, "jwt expired"⟩)
      | .error .invalid => (db, .error ⟨.jwtInvalid, "invalid signature"⟩)
      | .ok decoded =>
        match getUserWithRefreshToken decoded.userId tok db with
        | .error e => (db, .error e)
        | .ok user =>
          let p : TokenPayload :=
            { userId := user.id, role := user.roleName, version := some user.tokenVersion }
          match saveRefreshToken user.id (generateRefreshToken p now) db with
          | (db1, .ok _) =>
            (db1, .ok ⟨generateAccessToken p now, generateRefreshToken p now⟩)
          | (db1, .error e) => (db1, .error e) := rfl

theorem refreshTokens_err_expired (tok : Jwt) (now : Nat) (db : Db)
    (h : jwtVerify tok JWT_REFRESH_SECRET now = .error .expired) :
    refreshTokens (some tok) now db = (db, .error ⟨.jwtExpired, "jwt expired"⟩) := by
  rw [refreshTokens_some, h]

theorem refreshTokens_err_invalid (tok : Jwt) (now : Nat) (db : Db)
    (h : jwtVerify tok JWT_REFRESH_SECRET now = .error .invalid) :
    refreshTokens (some tok) now db = (db, .error ⟨.jwtInvalid, "invalid signature"⟩) := by
  rw [refreshTokens_some, h]

theorem refreshTokens_ok_case (tok : Jwt) (now : Nat) (db : Db)
    (decoded : TokenPayload)
    (h : jwtVerify tok JWT_REFRESH_SECRET now = .ok decoded) :
    refreshTokens (some tok) now db =
      match getUserWithRefreshToken decoded.userId tok db with
      | .error e => (db, .error e)
      | .ok user =>
        let p : TokenPayload :=
          { userId := user.id, role := user.roleName, version := some user.tokenVersion }
        match saveRefreshToken user.id (generateRefreshToken p now) db with
        | (db1, .ok _) =>
          (db1, .ok ⟨generateAccessToken p now, generateRefreshToken p now⟩)
        | (db1, .error e) => (db1, .error e) := by
  rw [refreshTokens_some, h]

/-- Refresh never succeeds against an account whose stored fingerprint is
cleared: every path of refreshTokens ends in an error. -/
theorem refreshTokens_noSession (w : Account) (hw : w.refreshToken = none)
    (t : Jwt) (n : Nat) :
    ((refreshTokens (some t) n (some w)).2).isOk = false := by
  cases hjv : jwtVerify t JWT_REFRESH_SECRET n with
  | error e =>
    cases e
    · rw [refreshTokens_err_expired t n (some w) hjv]
      rfl
    · rw [refreshTokens_err_invalid t n (some w) hjv]
      rfl
  | ok decoded =>
    rw [refreshTokens_ok_case t n (some w) decoded hjv]
    cases hg : getUserWithRefreshToken decoded.userId t (some w) with
    | error e => rfl
    | ok user =>
      obtain ⟨hdb, hfp⟩ := getUserWithRefreshToken_ok hg
      injection hdb with hdb
      rw [← hdb, hw] at hfp
      cases hfp

theorem authenticate_some (tok : Jwt) (now : Nat) (db : Db) :
    authenticate (some tok) now db =
      match jwtVerify tok JWT_ACCESS_SECRET now with
      | .error .expired => .error ⟨.authenticationError, "Token has expired"⟩
      | .error .invalid => .error ⟨.authenticationError, "Invalid or expired token"⟩
      | .ok payload =>
        match findById db payload.userId with
        | none => .error ⟨.authenticationError, "User not found"⟩
        | some user =>
          if ¬ user.isActive then
            .error ⟨.forbiddenError, "Account is blocked. Please contact support."⟩
          else
            match payload.version with
            | some v =>
              if v ≠ user.tokenVersion then
                .error ⟨.authenticationError, "Session revoked. Please login again."⟩
              else .ok user
            | none => .ok user := rfl

/-! ## Claim theorems -/

/-- C10: the request-gate authenticate middleware compares the version claim
against tokenVersion only when the payload carries one: every access token
that verifies under the access secret and whose payload has no version field
is accepted for an existing active user, whatever the current tokenVersion of
the account. -/
theorem authenticate_no_version_claim (u : Account) (tok : Jwt) (now : Nat)
    (hsec : tok.secret = JWT_ACCESS_SECRET) (hexp : now < tok.exp)
    (hver : tok.payload.version = none) (hid : tok.payload.userId = u.id)
    (hact : u.isActive = true) :
    authenticate (some tok) now (some u) = .ok u := by
  have hjv : jwtVerify tok JWT_ACCESS_SECRET now = .ok tok.payload := by
    unfold jwtVerify
    rw [hsec]
    simp [Nat.not_le.mpr hexp]
  rw [authenticate_some]
  simp only [hjv, hid, findById_self, hact, hver, not_true_eq_false]
  rfl

/-- C9: in every reachable user table, otpCode and otpExpiresAt of the
account are both null or both set; no identity operation leaves exactly one
of the two set. -/
theorem otp_fields_both_or_neither (db : Db) (u : Account)
    (hreach : Reach db) (hu : db = some u) :
    (u.otpCode = none ∧ u.otpExpiresAt = none) ∨
    (∃ hOtp expAt, u.otpCode = some hOtp ∧ u.otpExpiresAt = some expAt) := by
  have hc := (reach_dbInv hreach u hu).1
  unfold OtpFieldsConsistent at hc
  cases hoc : u.otpCode with
  | none =>
    cases hoe : u.otpExpiresAt with
    | none => exact Or.inl ⟨rfl, rfl⟩
    | some e2 =>
      rw [hoc, hoe] at hc
      simp at hc
  | some s =>
    cases hoe : u.otpExpiresAt with
    | none =>
      rw [hoc, hoe] at hc
      simp at hc
    | some e2 => exact Or.inr ⟨s, e2, rfl, rfl⟩

/-- C1 (amended): in every reachable table, refresh issues a pair only when
the supplied token verifies under the refresh secret, its fingerprint is the
stored one and, as a consequence of the session invariant, its version claim
is the current tokenVersion; when the version claim differs, refresh fails —
but with a jwt, not-found, no-session or invalid-refresh-token error, never
with the session-revoked error, because the refresh flow does not compare the
version claim. -/
theorem refreshTokens_session_guard (db : Db) (u : Account) (tok : Jwt)
    (now : Nat) (hreach : Reach db) (hdb : db = some u) :
    (((refreshTokens (some tok) now db).2).isOk = true →
       jwtVerify tok JWT_REFRESH_SECRET now = .ok tok.payload ∧
       u.refreshToken = some (tokenFingerprint tok) ∧
       tok.payload.version = some u.tokenVersion) ∧
    (tok.payload.version ≠ some u.tokenVersion →
       ∃ err : Err, (refreshTokens (some tok) now db).2 = .error err ∧
         err.message ≠ "Session revoked. Please login again.") := by
  subst hdb
  have hinv := (reach_dbInv hreach u rfl).2
  constructor
  · intro hok
    cases hjv : jwtVerify tok JWT_REFRESH_SECRET now with
    | error e =>
      cases e
      · rw [refreshTokens_err_expired tok now (some u) hjv] at hok
        exact Bool.noConfusion hok
      · rw [refreshTokens_err_invalid tok now (some u) hjv] at hok
        exact Bool.noConfusion hok
    | ok decoded =>
      have hdec := jwtVerify_ok hjv
      rw [refreshTokens_ok_case tok now (some u) decoded hjv] at hok
      cases hg : getUserWithRefreshToken decoded.userId tok (some u) with
      | error e =>
        rw [hg] at hok
        exact Bool.noConfusion hok
      | ok user =>
        obtain ⟨hdb2, hfp⟩ := getUserWithRefreshToken_ok hg
        injection hdb2 with hdb2
        subst hdb2
        have hver := hinv (tokenFingerprint tok) hfp
        refine ⟨?_, hfp, hver.1⟩
        exact congrArg Except.ok hdec
  · intro hne
    cases hjv : jwtVerify tok JWT_REFRESH_SECRET now with
    | error e =>
      cases e
      · exact ⟨⟨.jwtExpired, "jwt expired"⟩,
          by rw [refreshTokens_err_expired tok now (some u) hjv], by decide⟩
      · exact ⟨⟨.jwtInvalid, "invalid signature"⟩,
          by rw [refreshTokens_err_invalid tok now (some u) hjv], by decide⟩
    | ok decoded =>
      have hdec := jwtVerify_ok hjv
      cases hg : getUserWithRefreshToken decoded.userId tok (some u) with
      | error e =>
        refine ⟨e, ?_, ?_⟩
        · rw [refreshTokens_ok_case tok now (some u) decoded hjv, hg]
        · rcases getUserWithRefreshToken_err hg with h1 | h1 | h1 <;>
            rw [h1] <;> decide
      | ok user =>
        obtain ⟨hdb2, hfp⟩ := getUserWithRefreshToken_ok hg
        injection hdb2 with hdb2
        subst hdb2
        exact absurd (hinv (tokenFingerprint tok) hfp).1 hne

/-- C3: a successful changePassword (current password matches the stored
hash) stores the hash of the new password, clears the stored refresh-session
fingerprint and increments tokenVersion, after which no refresh token passes
refresh against the updated account. -/
theorem changePassword_correct (u : Account) (current newPw : String)
    (hpw : comparePassword current u.password = true) :
    (changePassword u.id current newPw (some u)).2 =
      .ok "Password changed successfully. Please login again." ∧
    (changePassword u.id current newPw (some u)).1 =
      some { u with
        password := hashPassword newPw
        refreshToken := none
        tokenVersion := u.tokenVersion + 1 } ∧
    (∀ t : Jwt, ∀ n : Nat,
      ((refreshTokens (some t) n
          ((changePassword u.id current newPw (some u)).1)).2).isOk = false) := by
  have hcp : changePassword u.id current newPw (some u) =
      (some { u with
          password := hashPassword newPw
          refreshToken := none
          tokenVersion := u.tokenVersion + 1 },
       .ok "Password changed successfully. Please login again.") := by
    unfold changePassword
    rw [findById_self]
    simp [hpw]
  refine ⟨by rw [hcp], by rw [hcp], ?_⟩
  intro t n
  rw [hcp]
  exact refreshTokens_noSession _ rfl t n

/-- C7: no account enumeration at login: an unknown email and an existing
account with a wrong password make authenticateUser fail with the identical
error kind and message, ValidationError Invalid credentials. -/
theorem login_no_enumeration (u : Account) (pwA pwB : String) (auditOk : Bool)
    (hwrong : comparePassword pwB u.password = false) :
    (authenticateUser u.email pwA auditOk none).2 =
      .error ⟨.validationError, "Invalid credentials."⟩ ∧
    (authenticateUser u.email pwB auditOk (some u)).2 =
      .error ⟨.validationError, "Invalid credentials."⟩ ∧
    (authenticateUser u.email pwA auditOk none).2 =
      (authenticateUser u.email pwB auditOk (some u)).2 := by
  have h1 : (authenticateUser u.email pwA auditOk none).2 =
      .error ⟨.validationError, "Invalid credentials."⟩ := rfl
  have h2 : (authenticateUser u.email pwB auditOk (some u)).2 =
      .error ⟨.validationError, "Invalid credentials."⟩ := by
    unfold authenticateUser
    simp [findByEmail, hwrong]
  exact ⟨h1, h2, h1.trans h2.symm⟩

theorem verifyEmailOTP_noPending (w : Account) (email otp : String) (now : Nat)
    (a : Bool) (hm : w.email = email) (hc : w.otpCode = none) :
    (verifyEmailOTP email otp now a (some w)).2 =
      .error ⟨.validationError, "No OTP request found. Please request a new one."⟩ := by
  unfold verifyEmailOTP
  simp [findByEmail, hm, hc]

theorem resetPassword_noPending (w : Account) (email otp newPw : String)
    (now : Nat) (a : Bool) (hm : w.email = email) (hc : w.otpCode = none) :
    (resetPassword email otp newPw now a (some w)).2 =
      .error ⟨.validationError, "No OTP request found."⟩ := by
  unfold resetPassword
  simp [findByEmail, hm, hc]

/-- C6: OTP single use: a successful consumption (email verification or
password reset) clears both OTP fields, and a second attempt with the same
code immediately fails with the no-pending-OTP error. -/
theorem otp_single_use (u v w : Account) (dbW dbR : Db) (msg : String)
    (emailA emailB otpA otpB newPwA newPwB : String) (nowA nowB nowC nowD : Nat)
    (h1 : verifyEmailOTP emailA otpA nowA true (some u) = (dbW, .ok w))
    (h2 : resetPassword emailB otpB newPwA nowC true (some v) = (dbR, .ok msg)) :
    (dbW = some w ∧ w.otpCode = none ∧ w.otpExpiresAt = none ∧
      (verifyEmailOTP emailA otpA nowB true (some w)).2 =
        .error ⟨.validationError, "No OTP request found. Please request a new one."⟩) ∧
    (∃ z : Account, dbR = some z ∧ z.otpCode = none ∧ z.otpExpiresAt = none ∧
      (resetPassword emailB otpB newPwB nowD true (some z)).2 =
        .error ⟨.validationError, "No OTP request found."⟩) := by
  obtain ⟨hdw, hwc, hwe, hwm⟩ := verifyEmailOTP_ok h1
  obtain ⟨z, hdz, hzc, hze, hzm⟩ := resetPassword_ok h2
  refine ⟨⟨hdw, hwc, hwe, verifyEmailOTP_noPending w emailA otpA nowB true hwm hwc⟩,
    z, hdz, hzc, hze, resetPassword_noPending z emailB otpB newPwB nowD true hzm hzc⟩

/-- C8: OTP consumption failure taxonomy and boundary, for both consumers
(email verification and password reset): no-pending when an OTP field is
unset, expired exactly when now is strictly past otpExpiresAt (so one second
before the boundary succeeds and one second after fails), invalid when the
fingerprint of the supplied code differs from the stored hash; the checks are
applied in that order (expiry is reported even for a wrong code, no-pending
even for an expired timestamp). -/
theorem otp_consume_taxonomy (u : Account) (otp newPw : String) (now : Nat) :
    ((u.otpCode = none ∨ u.otpExpiresAt = none) →
        (verifyEmailOTP u.email otp now true (some u)).2 =
          .error ⟨.validationError, "No OTP request found. Please request a new one."⟩ ∧
        (resetPassword u.email otp newPw now true (some u)).2 =
          .error ⟨.validationError, "No OTP request found."⟩) ∧
    (∀ stored expAt, u.otpCode = some stored → u.otpExpiresAt = some expAt →
        (now > expAt →
          (verifyEmailOTP u.email otp now true (some u)).2 =
            .error ⟨.validationError, "OTP expired. Please register again or resend OTP."⟩ ∧
          (resetPassword u.email otp newPw now true (some u)).2 =
            .error ⟨.validationError, "OTP has expired."⟩) ∧
        (now ≤ expAt → hashToken (jsTrim otp) ≠ stored →
          (verifyEmailOTP u.email otp now true (some u)).2 =
            .error ⟨.validationError, "Invalid OTP."⟩) ∧
        (now ≤ expAt → hashToken otp ≠ stored →
          (resetPassword u.email otp newPw now true (some u)).2 =
            .error ⟨.validationError, "Invalid OTP."⟩) ∧
        (now ≤ expAt → hashToken (jsTrim otp) = stored →
          ((verifyEmailOTP u.email otp now true (some u)).2).isOk = true) ∧
        (now ≤ expAt → hashToken otp = stored →
          ((resetPassword u.email otp newPw now true (some u)).2).isOk = true) ∧
        (1000 ≤ expAt → hashToken (jsTrim otp) = stored →
          ((verifyEmailOTP u.email otp (expAt - 1000) true (some u)).2).isOk = true ∧
          (verifyEmailOTP u.email otp (expAt + 1000) true (some u)).2 =
            .error ⟨.validationError, "OTP expired. Please register again or resend OTP."⟩)) := by
  constructor
  · intro hdisj
    cases hoc : u.otpCode with
    | none =>
      constructor
      · exact verifyEmailOTP_noPending u u.email otp now true rfl hoc
      · exact resetPassword_noPending u u.email otp newPw now true rfl hoc
    | some s =>
      cases hdisj with
      | inl hl => rw [hoc] at hl; cases hl
      | inr hr =>
        constructor
        · unfold verifyEmailOTP
          simp [findByEmail, hoc, hr]
        · unfold resetPassword
          simp [findByEmail, hoc, hr]
  · intro stored expAt hc he
    have hVexp : ∀ n : Nat, n > expAt →
        (verifyEmailOTP u.email otp n true (some u)).2 =
          .error ⟨.validationError, "OTP expired. Please register again or resend OTP."⟩ := by
      intro n hgt
      unfold verifyEmailOTP
      simp [findByEmail, hc, he, hgt]
    have hVok : ∀ n : Nat, n ≤ expAt → hashToken (jsTrim otp) = stored →
        ((verifyEmailOTP u.email otp n true (some u)).2).isOk = true := by
      intro n hle hhash
      unfold verifyEmailOTP
      simp [findByEmail, hc, he, Nat.not_lt.mpr hle, hhash]
      rfl
    refine ⟨?_, ?_, ?_, ?_, ?_, ?_⟩
    · intro hgt
      refine ⟨hVexp now hgt, ?_⟩
      unfold resetPassword
      simp [findByEmail, hc, he, hgt]
    · intro hle hne
      unfold verifyEmailOTP
      simp [findByEmail, hc, he, Nat.not_lt.mpr hle, hne]
    · intro hle hne
      unfold resetPassword
      simp [findByEmail, hc, he, Nat.not_lt.mpr hle, verifyOTP, hne]
    · exact hVok now
    · intro hle hhash
      unfold resetPassword
      simp [findByEmail, hc, he, Nat.not_lt.mpr hle, verifyOTP, hhash]
      rfl
    · intro hbound hhash
      refine ⟨hVok (expAt - 1000) (Nat.sub_le expAt 1000) hhash,
        hVexp (expAt + 1000) ?_⟩
      omega

theorem resetPassword_found {db : Db} {email : String} {user : Account}
    (hfe : findByEmail db email = some user) (otp newPw : String) (now : Nat)
    (a : Bool) :
    resetPassword email otp newPw now a db =
      match user.otpCode, user.otpExpiresAt with
      | some stored, some expiresAt =>
        if now > expiresAt then
          (db, .error ⟨.validationError, "OTP has expired."⟩)
        else if ¬ verifyOTP otp stored then
          (db, .error ⟨.validationError, "Invalid OTP."⟩)
        else
          let updated := { user with
            password := hashPassword newPw
            otpCode := none
            otpExpiresAt := none
            refreshToken := none
            tokenVersion := user.tokenVersion + 1 }
          if a then (some updated, .ok "Password reset successful.")
          else (some updated, .error auditErr)
      | _, _ => (db, .error ⟨.validationError, "No OTP request found."⟩) := by
  unfold resetPassword
  rw [hfe]

/-- C2 (amended): requestPasswordReset returns the generic success message
when an account with the email exists, but for an unknown email the
NotFoundError raised by createAndSendOTP propagates to the caller, so the two
cases are distinguishable; the enumeration-safe generic response exists only
for login. -/
theorem requestPasswordReset_behavior (db : Db) (email otp : String) (now : Nat) :
    (findByEmail db email = none →
      (requestPasswordReset email otp now true db).2 =
        .error ⟨.notFoundError, "User not found."⟩) ∧
    (∀ u : Account, findByEmail db email = some u →
      (requestPasswordReset email otp now true db).2 =
        .ok "Password reset link sent to your email.") := by
  constructor
  · intro hfe
    unfold requestPasswordReset createAndSendOTP
    simp [hfe]
  · intro u hfe
    unfold requestPasswordReset createAndSendOTP
    simp [hfe]

/-- C2 counterexample: the claim says every requestPasswordReset returns a
generic success; on the unknown email ghost@x.com it returns the NotFound
error instead, while an existing account gets the success message — the two
caller-facing results differ. -/
theorem requestPasswordReset_enumeration_cex :
    (requestPasswordReset "ghost@x.com" "111111" 0 true none).2 =
      .error ⟨.notFoundError, "User not found."⟩ ∧
    (requestPasswordReset "a@x.com" "111111" 0 true
        (some ⟨1, "a@x.com", "bcrypt$pw", "Al", "Ka", "TRAVELLER", true, true,
              none, none, none, 0⟩)).2 =
      .ok "Password reset link sent to your email." ∧
    (Except.error ⟨.notFoundError, "User not found."⟩ : Except Err String) ≠
      .ok "Password reset link sent to your email." :=
  ⟨rfl, rfl, fun h => Except.noConfusion h⟩

/-- C4 (amended): createAndSendOTP stores otpExpiresAt = now +
OTP_EXPIRE_MINUTES (default 15) minutes for every purpose; issuance is
independent of the purpose string, so PASSWORD_RESET OTPs receive the same
15-minute TTL rather than a longer one. -/
theorem createAndSendOTP_ttl (u : Account) (otpType otp : String) (now : Nat)
    (auditOk : Bool) :
    (createAndSendOTP u.email otpType otp now auditOk (some u)).1 =
      some { u with
        otpCode := some (hashToken otp)
        otpExpiresAt := some (now + OTP_EXPIRE_MINUTES * 60 * 1000) } ∧
    (createAndSendOTP u.email otpType otp now auditOk (some u)).1 =
      (createAndSendOTP u.email "PASSWORD_RESET" otp now auditOk (some u)).1 := by
  have h : ∀ ty : String,
      (createAndSendOTP u.email ty otp now auditOk (some u)).1 =
        some { u with
          otpCode := some (hashToken otp)
          otpExpiresAt := some (now + OTP_EXPIRE_MINUTES * 60 * 1000) } := by
    intro ty
    unfold createAndSendOTP
    have hfe : findByEmail (some u) u.email = some u := by simp [findByEmail]
    rw [hfe]
    cases auditOk <;> rfl
  exact ⟨h otpType, (h otpType).trans (h "PASSWORD_RESET").symm⟩

/-- C4 counterexample: an OTP issued with purpose PASSWORD_RESET at time 0
gets otpExpiresAt = 900000 ms = exactly the 15-minute TTL, which does not
exceed it — there is no longer reset TTL in the issuance path. -/
theorem password_reset_otp_ttl_cex :
    (Option.map Account.otpExpiresAt
      (createAndSendOTP "a@x.com" "PASSWORD_RESET" "654321" 0 true
        (some ⟨1, "a@x.com", "bcrypt$pw", "Al", "Ka", "TRAVELLER", true, true,
              none, none, none, 0⟩)).1) = some (some 900000) ∧
    ¬ ((900000 : Nat) > 15 * 60 * 1000) :=
  ⟨rfl, by decide⟩

/-- C5 (amended): a failing audit-log append never rolls back the primary
mutation — the stored state is identical to that of a successful-audit run —
but the failure does propagate: whenever the operation would have succeeded,
the audit-failure run returns the audit store error instead of the success
result. Shown for registerUser and resetPassword, whose audit writes are
awaited with no try/catch after the user-table update. -/
theorem audit_failure_behavior (email pw fn ln otp newPw : String)
    (now freshId : Nat) (db : Db) :
    (registerUser email pw fn ln otp now freshId false db).1 =
      (registerUser email pw fn ln otp now freshId true db).1 ∧
    (resetPassword email otp newPw now false db).1 =
      (resetPassword email otp newPw now true db).1 ∧
    (((registerUser email pw fn ln otp now freshId true db).2).isOk = true →
      (registerUser email pw fn ln otp now freshId false db).2 = .error auditErr) ∧
    (((resetPassword email otp newPw now true db).2).isOk = true →
      (resetPassword email otp newPw now false db).2 = .error auditErr) := by
  have hreg : (registerUser email pw fn ln otp now freshId false db).1 =
        (registerUser email pw fn ln otp now freshId true db).1 ∧
      (((registerUser email pw fn ln otp now freshId true db).2).isOk = true →
        (registerUser email pw fn ln otp now freshId false db).2 = .error auditErr) := by
    unfold registerUser
    by_cases hdup : ((findByEmail db email).any fun u => u.isVerified) = true
    · rw [if_pos hdup, if_pos hdup]
      exact ⟨rfl, fun hok => Bool.noConfusion hok⟩
    · rw [if_neg hdup, if_neg hdup]
      cases hfe : findByEmail db email with
      | none => exact ⟨rfl, fun _ => rfl⟩
      | some u0 => exact ⟨rfl, fun _ => rfl⟩
  have hres : (resetPassword email otp newPw now false db).1 =
        (resetPassword email otp newPw now true db).1 ∧
      (((resetPassword email otp newPw now true db).2).isOk = true →
        (resetPassword email otp newPw now false db).2 = .error auditErr) := by
    cases hfe : findByEmail db email with
    | none =>
      have e1 : ∀ a : Bool, resetPassword email otp newPw now a db =
          (db, .error ⟨.notFoundError, "User not found."⟩) := by
        intro a
        unfold resetPassword
        rw [hfe]
      rw [e1 false, e1 true]
      exact ⟨rfl, fun hok => Bool.noConfusion hok⟩
    | some user =>
      cases hoc : user.otpCode with
      | none =>
        have e1 : ∀ a : Bool, resetPassword email otp newPw now a db =
            (db, .error ⟨.validationError, "No OTP request found."⟩) := by
          intro a
          rw [resetPassword_found hfe otp newPw now a, hoc]
        rw [e1 false, e1 true]
        exact ⟨rfl, fun hok => Bool.noConfusion hok⟩
      | some stored =>
        cases hoe : user.otpExpiresAt with
        | none =>
          have e1 : ∀ a : Bool, resetPassword email otp newPw now a db =
              (db, .error ⟨.validationError, "No OTP request found."⟩) := by
            intro a
            rw [resetPassword_found hfe otp newPw now a, hoc, hoe]
          rw [e1 false, e1 true]
          exact ⟨rfl, fun hok => Bool.noConfusion hok⟩
        | some expAt =>
          have e1 : ∀ a : Bool, resetPassword email otp newPw now a db =
              (if now > expAt then
                (db, .error ⟨.validationError, "OTP has expired."⟩)
              else if ¬ verifyOTP otp stored then
                (db, .error ⟨.validationError, "Invalid OTP."⟩)
              else
                let updated := { user with
                  password := hashPassword newPw
                  otpCode := none
                  otpExpiresAt := none
                  refreshToken := none
                  tokenVersion := user.tokenVersion + 1 }
                if a then (some updated, .ok "Password reset successful.")
                else (some updated, .error auditErr)) := by
            intro a
            rw [resetPassword_found hfe otp newPw now a, hoc, hoe]
          rw [e1 false, e1 true]
          by_cases hgt : now > expAt
          · rw [if_pos hgt, if_pos hgt]
            exact ⟨rfl, fun hok => Bool.noConfusion hok⟩
          · rw [if_neg hgt, if_neg hgt]
            by_cases hv : (¬ verifyOTP otp stored = true)
            · rw [if_pos hv, if_pos hv]
              exact ⟨rfl, fun hok => Bool.noConfusion hok⟩
            · rw [if_neg hv, if_neg hv]
              exact ⟨rfl, fun _ => rfl⟩
  exact ⟨hreg.1, hres.1, hreg.2, hres.2⟩

/-- C5 counterexample: registering a fresh account with a failing audit sink
returns the audit error to the caller (the operation fails), even though the
account row was created and persists. -/
theorem audit_failure_cex :
    (registerUser "a@x.com" "pw" "Al" "Ka" "123456" 0 1 false none).2 =
      .error auditErr ∧
    (registerUser "a@x.com" "pw" "Al" "Ka" "123456" 0 1 false none).1 =
      some ⟨1, "a@x.com", "bcrypt$pw", "Al", "Ka", "TRAVELLER", false, true,
            some "sha256$123456", some 900000, none, 0⟩ :=
  ⟨rfl, rfl⟩

/-- C1 counterexample: a reachable run — register, verify email (which issues
and stores a refresh pair at version 0), revokeAllSessions (clear + bump to
1) — leaves the version claim of the old refresh token (0) different from the
current tokenVersion (1); refreshing with that token then fails, but with the
ValidationError No valid session., not with a session-revoked error. -/
theorem refresh_stale_version_error_cex :
    Reach (revokeAllUserSessions 1 true
        (verifyEmailController "a@x.com" "123456" 1000 true
          (registerUser "a@x.com" "pw" "Al" "Ka" "123456" 0 1 true none).1).1).1 ∧
    Option.map Account.tokenVersion
      ((revokeAllUserSessions 1 true
        (verifyEmailController "a@x.com" "123456" 1000 true
          (registerUser "a@x.com" "pw" "Al" "Ka" "123456" 0 1 true none).1).1).1) =
      some 1 ∧
    (generateRefreshToken ⟨1, "TRAVELLER", some 0⟩ 1000).payload.version = some 0 ∧
    (refreshTokens (some (generateRefreshToken ⟨1, "TRAVELLER", some 0⟩ 1000)) 2000
        ((revokeAllUserSessions 1 true
          (verifyEmailController "a@x.com" "123456" 1000 true
            (registerUser "a@x.com" "pw" "Al" "Ka" "123456" 0 1 true none).1).1).1)).2 =
      .error ⟨.validationError, "No valid session."⟩ ∧
    (Except.error ⟨.validationError, "No valid session."⟩ : Except Err TokenPair) ≠
      .error ⟨.authenticationError, "Session revoked. Please login again."⟩ := by
  refine ⟨?_, rfl, rfl, rfl, ?_⟩
  case refine_2 =>
    intro h
    injection h with h2
    exact absurd (congrArg Err.kind h2) (by decide)
  exact Relation.ReflTransGen.tail
    (Relation.ReflTransGen.tail
      (Relation.ReflTransGen.single
        (Step.register "a@x.com" "pw" "Al" "Ka" "123456" 0 1 true none))
      (Step.verifyEmail "a@x.com" "123456" 1000 true
        (registerUser "a@x.com" "pw" "Al" "Ka" "123456" 0 1 true none).1))
    (Step.revokeStep 1 true
      (verifyEmailController "a@x.com" "123456" 1000 true
        (registerUser "a@x.com" "pw" "Al" "Ka" "123456" 0 1 true none).1).1)

/-! ## Witnesses -/

theorem refreshTokens_session_guard_witness :
    (((refreshTokens (some (generateRefreshToken ⟨1, "TRAVELLER", some 5⟩ 0)) 10
          (some ⟨1, "a@x.com", "bcrypt$pw", "Al", "Ka", "TRAVELLER", false, true,
                some "sha256$123456", some 900000, none, 0⟩)).2).isOk = true →
        jwtVerify (generateRefreshToken ⟨1, "TRAVELLER", some 5⟩ 0)
            JWT_REFRESH_SECRET 10 = .ok ⟨1, "TRAVELLER", some 5⟩ ∧
        (none : Option TokenDigest) =
          some (tokenFingerprint (generateRefreshToken ⟨1, "TRAVELLER", some 5⟩ 0)) ∧
        (some 5 : Option Nat) = some 0) ∧
    ((some 5 : Option Nat) ≠ some 0 →
        ∃ err : Err,
          (refreshTokens (some (generateRefreshToken ⟨1, "TRAVELLER", some 5⟩ 0)) 10
            (some ⟨1, "a@x.com", "bcrypt$pw", "Al", "Ka", "TRAVELLER", false, true,
                  some "sha256$123456", some 900000, none, 0⟩)).2 = .error err ∧
          err.message ≠ "Session revoked. Please login again.") :=
  refreshTokens_session_guard _ _ _ 10
    (Relation.ReflTransGen.single
      (Step.register "a@x.com" "pw" "Al" "Ka" "123456" 0 1 true none))
    rfl

theorem requestPasswordReset_behavior_witness :
    findByEmail none "ghost@x.com" = none ∧
    (requestPasswordReset "ghost@x.com" "111111" 5 true none).2 =
      .error ⟨.notFoundError, "User not found."⟩ :=
  ⟨rfl, (requestPasswordReset_behavior none "ghost@x.com" "111111" 5).1 rfl⟩

theorem changePassword_correct_witness :
    comparePassword "oldpw" "bcrypt$oldpw" = true ∧
    ((changePassword 1 "oldpw" "newpw"
        (some ⟨1, "a@x.com", "bcrypt$oldpw", "Al", "Ka", "TRAVELLER", true, true,
              none, none, none, 0⟩)).2 =
      .ok "Password changed successfully. Please login again." ∧
    (changePassword 1 "oldpw" "newpw"
        (some ⟨1, "a@x.com", "bcrypt$oldpw", "Al", "Ka", "TRAVELLER", true, true,
              none, none, none, 0⟩)).1 =
      some ⟨1, "a@x.com", "bcrypt$newpw", "Al", "Ka", "TRAVELLER", true, true,
            none, none, none, 1⟩ ∧
    (∀ t : Jwt, ∀ n : Nat,
      ((refreshTokens (some t) n
          ((changePassword 1 "oldpw" "newpw"
            (some ⟨1, "a@x.com", "bcrypt$oldpw", "Al", "Ka", "TRAVELLER", true,
                  true, none, none, none, 0⟩)).1)).2).isOk = false)) :=
  ⟨rfl, changePassword_correct
    ⟨1, "a@x.com", "bcrypt$oldpw", "Al", "Ka", "TRAVELLER", true, true,
      none, none, none, 0⟩ "oldpw" "newpw" rfl⟩

theorem audit_failure_behavior_witness :
    ((registerUser "a@x.com" "pw" "Al" "Ka" "123456" 0 1 true none).2).isOk = true ∧
    (registerUser "a@x.com" "pw" "Al" "Ka" "123456" 0 1 false none).2 =
      .error auditErr :=
  ⟨rfl,
    (audit_failure_behavior "a@x.com" "pw" "Al" "Ka" "123456" "np" 0 1 none).2.2.1 rfl⟩

theorem otp_single_use_witness :
    verifyEmailOTP "a@x.com" "123456" 1000 true
        (some ⟨1, "a@x.com", "bcrypt$pw", "Al", "Ka", "TRAVELLER", false, true,
              some "sha256$123456", some 900000, none, 0⟩) =
      (some ⟨1, "a@x.com", "bcrypt$pw", "Al", "Ka", "TRAVELLER", true, true,
            none, none, none, 0⟩,
       .ok ⟨1, "a@x.com", "bcrypt$pw", "Al", "Ka", "TRAVELLER", true, true,
            none, none, none, 0⟩) ∧
    resetPassword "b@x.com" "654321" "Np1" 1000 true
        (some ⟨2, "b@x.com", "bcrypt$pw", "Bo", "Ka", "TRAVELLER", true, true,
              some "sha256$654321", some 900000, none, 3⟩) =
      (some ⟨2, "b@x.com", "bcrypt$Np1", "Bo", "Ka", "TRAVELLER", true, true,
            none, none, none, 4⟩, .ok "Password reset successful.") ∧
    ((some (⟨1, "a@x.com", "bcrypt$pw", "Al", "Ka", "TRAVELLER", true, true,
            none, none, none, 0⟩ : Account) =
        some ⟨1, "a@x.com", "bcrypt$pw", "Al", "Ka", "TRAVELLER", true, true,
              none, none, none, 0⟩ ∧
      (⟨1, "a@x.com", "bcrypt$pw", "Al", "Ka", "TRAVELLER", true, true,
            none, none, none, 0⟩ : Account).otpCode = none ∧
      (⟨1, "a@x.com", "bcrypt$pw", "Al", "Ka", "TRAVELLER", true, true,
            none, none, none, 0⟩ : Account).otpExpiresAt = none ∧
      (verifyEmailOTP "a@x.com" "123456" 2000 true
          (some ⟨1, "a@x.com", "bcrypt$pw", "Al", "Ka", "TRAVELLER", true, true,
                none, none, none, 0⟩)).2 =
        .error ⟨.validationError, "No OTP request found. Please request a new one."⟩) ∧
    (∃ z : Account,
      some (⟨2, "b@x.com", "bcrypt$Np1", "Bo", "Ka", "TRAVELLER", true, true,
            none, none, none, 4⟩ : Account) = some z ∧
      z.otpCode = none ∧ z.otpExpiresAt = none ∧
      (resetPassword "b@x.com" "654321" "Np2" 2000 true (some z)).2 =
        .error ⟨.validationError, "No OTP request found."⟩)) :=
  ⟨rfl, rfl,
    otp_single_use
      ⟨1, "a@x.com", "bcrypt$pw", "Al", "Ka", "TRAVELLER", false, true,
        some "sha256$123456", some 900000, none, 0⟩
      ⟨2, "b@x.com", "bcrypt$pw", "Bo", "Ka", "TRAVELLER", true, true,
        some "sha256$654321", some 900000, none, 3⟩
      ⟨1, "a@x.com", "bcrypt$pw", "Al", "Ka", "TRAVELLER", true, true,
        none, none, none, 0⟩
      (some ⟨1, "a@x.com", "bcrypt$pw", "Al", "Ka", "TRAVELLER", true, true,
            none, none, none, 0⟩)
      (some ⟨2, "b@x.com", "bcrypt$Np1", "Bo", "Ka", "TRAVELLER", true, true,
            none, none, none, 4⟩)
      "Password reset successful." "a@x.com" "b@x.com" "123456" "654321"
      "Np1" "Np2" 1000 2000 1000 2000 rfl rfl⟩

theorem login_no_enumeration_witness :
    comparePassword "wrong" "bcrypt$pw" = false ∧
    ((authenticateUser "a@x.com" "anything" true none).2 =
        .error ⟨.validationError, "Invalid credentials."⟩ ∧
      (authenticateUser "a@x.com" "wrong" true
          (some ⟨1, "a@x.com", "bcrypt$pw", "Al", "Ka", "TRAVELLER", true, true,
                none, none, none, 0⟩)).2 =
        .error ⟨.validationError, "Invalid credentials."⟩ ∧
      (authenticateUser "a@x.com" "anything" true none).2 =
        (authenticateUser "a@x.com" "wrong" true
          (some ⟨1, "a@x.com", "bcrypt$pw", "Al", "Ka", "TRAVELLER", true, true,
                none, none, none, 0⟩)).2) :=
  ⟨by decide, login_no_enumeration
    ⟨1, "a@x.com", "bcrypt$pw", "Al", "Ka", "TRAVELLER", true, true,
      none, none, none, 0⟩ "anything" "wrong" true (by decide)⟩

theorem otp_consume_taxonomy_witness :
    (verifyEmailOTP "a@x.com" "999999" 1000 true
        (some ⟨1, "a@x.com", "bcrypt$pw", "Al", "Ka", "TRAVELLER", false, true,
              some "sha256$123456", some 900000, none, 0⟩)).2 =
      .error ⟨.validationError, "Invalid OTP."⟩ :=
  ((otp_consume_taxonomy
      ⟨1, "a@x.com", "bcrypt$pw", "Al", "Ka", "TRAVELLER", false, true,
        some "sha256$123456", some 900000, none, 0⟩
      "999999" "np" 1000).2 "sha256$123456" 900000 rfl rfl).2.1
    (by decide) (by decide)

theorem otp_fields_both_or_neither_witness :
    ((⟨1, "a@x.com", "bcrypt$pw", "Al", "Ka", "TRAVELLER", false, true,
        some "sha256$123456", some 900000, none, 0⟩ : Account).otpCode = none ∧
      (⟨1, "a@x.com", "bcrypt$pw", "Al", "Ka", "TRAVELLER", false, true,
        some "sha256$123456", some 900000, none, 0⟩ : Account).otpExpiresAt = none) ∨
    (∃ hOtp expAt,
      (⟨1, "a@x.com", "bcrypt$pw", "Al", "Ka", "TRAVELLER", false, true,
        some "sha256$123456", some 900000, none, 0⟩ : Account).otpCode = some hOtp ∧
      (⟨1, "a@x.com", "bcrypt$pw", "Al", "Ka", "TRAVELLER", false, true,
        some "sha256$123456", some 900000, none, 0⟩ : Account).otpExpiresAt =
        some expAt) :=
  otp_fields_both_or_neither
    (registerUser "a@x.com" "pw" "Al" "Ka" "123456" 0 1 true none).1
    ⟨1, "a@x.com", "bcrypt$pw", "Al", "Ka", "TRAVELLER", false, true,
      some "sha256$123456", some 900000, none, 0⟩
    (Relation.ReflTransGen.single
      (Step.register "a@x.com" "pw" "Al" "Ka" "123456" 0 1 true none))
    rfl

theorem authenticate_no_version_claim_witness :
    (⟨⟨7, "TRAVELLER", none⟩, "access-secret", 100⟩ : Jwt).secret =
      JWT_ACCESS_SECRET ∧
    (5 : Nat) < 100 ∧
    authenticate (some ⟨⟨7, "TRAVELLER", none⟩, "access-secret", 100⟩) 5
      (some ⟨7, "e@x.com", "bcrypt$pw", "Al", "Ka", "TRAVELLER", true, true,
            none, none, none, 42⟩) =
      .ok ⟨7, "e@x.com", "bcrypt$pw", "Al", "Ka", "TRAVELLER", true, true,
           none, none, none, 42⟩ :=
  ⟨rfl, by decide,
    authenticate_no_version_claim
      ⟨7, "e@x.com", "bcrypt$pw", "Al", "Ka", "TRAVELLER", true, true,
        none, none, none, 42⟩
      ⟨⟨7, "TRAVELLER", none⟩, "access-secret", 100⟩ 5 rfl (by decide) rfl rfl rfl⟩

end Tripmate
